import Mathlib

/-!
Verification of the clock/reset generator (`_CRG`) of
`litex_boards/community/targets/zcu104.py`.

The `_CRG.__init__` body builds two synchronous update loops:

* the `clk200` domain (reset input `~pll.locked | cpu_reset` through an
  `AsyncResetSynchronizer`) holds the registers `ic_reset_counter`
  (6 bits, reset value 63) and `ic_reset` (reset value 1); each tick
  decrements the counter while it is non-zero, and clears `ic_reset`
  once it is zero;
* the `ic` domain (clocked by the `sys` clock, reset input `ic_reset`
  through an `AsyncResetSynchronizer`) holds the registers
  `ic_rdy_counter` (6 bits, reset value 63) and `cd_sys.rst` (reset
  value 1, set by `self.cd_sys.rst.reset = 1`); each tick, when `ic_rdy`
  is sampled true, decrements the counter while it is non-zero and
  clears `cd_sys.rst` once it is zero.

`ic_rdy` is the `RDY` output of the `IDELAYCTRL` primitive when
`with_sdram` is true, and the constant 1 otherwise.

Modelling decisions:

* vendor reset-synchronization primitives (`AsyncResetSynchronizer`) are
  modelled level-sensitively: a domain's registers take their reset
  values at a tick exactly when the synchronizer's input is asserted at
  that tick (the two-flip-flop deassertion latency of the primitive is
  abstracted away, as the spec treats these primitives as opaque
  external capabilities);
* migen registers use a synchronous reset: at each rising edge the
  domain's registers either reload their reset values (when the domain
  reset is asserted) or follow the `sync` statements;
* the two clock domains are asynchronous to each other, so an execution
  is an arbitrary interleaving of `clk200` ticks and `ic` ticks, each
  tick sampling the asynchronous inputs (`pll.locked`, `cpu_reset`, the
  `IDELAYCTRL` `RDY` output) at that instant;
* `cpu_reset` is recorded on `ic`-domain ticks as well, because the
  hardware samples some value of it at every edge; the `ic`-domain logic
  of the source simply never reads it.
-/

/-- Register state of the `_CRG` reset sequencer: the two countdown
counters, the intermediate reset `ic_reset`, and the primary-domain
reset bit `cd_sys.rst` (called `sys_rst` here). -/
structure CRGState where
  ic_reset_counter : Nat
  ic_reset : Bool
  ic_rdy_counter : Nat
  sys_rst : Bool
deriving DecidableEq, Repr

/-- Power-on state: every register holds its declared reset value
(`Signal(max=64, reset=63)` twice, `Signal(reset=1)`, and
`cd_sys.rst.reset = 1`). -/
def initState : CRGState :=
  { ic_reset_counter := 63, ic_reset := true, ic_rdy_counter := 63, sys_rst := true }

/-- One rising edge of the bring-up clock `clk200`.  The domain reset is
`~pll.locked | cpu_reset` (the input of
`AsyncResetSynchronizer(self.cd_clk200, ~pll.locked | cpu_reset)`);
when it is asserted the domain registers reload their reset values,
otherwise the `self.sync.clk200` block runs:
`If(ic_reset_counter != 0, ic_reset_counter.eq(ic_reset_counter - 1))
 .Else(ic_reset.eq(0))`. -/
def tick200 (locked cpu_reset : Bool) (s : CRGState) : CRGState :=
  if !locked || cpu_reset then
    { s with ic_reset_counter := 63, ic_reset := true }
  else if s.ic_reset_counter ≠ 0 then
    { s with ic_reset_counter := s.ic_reset_counter - 1 }
  else
    { s with ic_reset := false }

/-- The readiness signal `ic_rdy`: the `RDY` output of the `IDELAYCTRL`
primitive (an asynchronous external input, here `rdy_in`) when
`with_sdram` is true, and the constant 1 (`self.comb += ic_rdy.eq(1)`)
otherwise. -/
def icRdy (with_sdram rdy_in : Bool) : Bool :=
  if with_sdram then rdy_in else true

/-- One rising edge of the `ic` domain (its clock is the `sys` clock:
`self.comb += self.cd_ic.clk.eq(self.cd_sys.clk)`), so this is one
primary-domain tick.  The domain reset is `ic_reset` (the input of
`AsyncResetSynchronizer(self.cd_ic, ic_reset)` in both configuration
branches); when it is asserted the domain registers (`ic_rdy_counter`
and `cd_sys.rst`) reload their reset values, otherwise the
`self.sync.ic` block runs:
`If(ic_rdy, If(ic_rdy_counter != 0, ic_rdy_counter.eq(ic_rdy_counter - 1))
           .Else(self.cd_sys.rst.eq(0)))`.
`cpu_reset` is the value of the external reset at this edge; the source
logic of this domain does not read it. -/
def tickIC (with_sdram rdy_in _cpu_reset : Bool) (s : CRGState) : CRGState :=
  if s.ic_reset then
    { s with ic_rdy_counter := 63, sys_rst := true }
  else if icRdy with_sdram rdy_in then
    if s.ic_rdy_counter ≠ 0 then
      { s with ic_rdy_counter := s.ic_rdy_counter - 1 }
    else
      { s with sys_rst := false }
  else
    s

/-- An event of an execution: one tick of one of the two clock domains,
carrying the asynchronous inputs sampled at that edge. -/
inductive Ev where
  | clk200 (locked cpu_reset : Bool)
  | ic (rdy_in cpu_reset : Bool)
deriving DecidableEq, Repr

/-- Apply one event to the state. -/
def stepEv (with_sdram : Bool) (s : CRGState) : Ev → CRGState
  | .clk200 l c => tick200 l c s
  | .ic r c => tickIC with_sdram r c s

/-- Run a sequence of events from a state. -/
def run (with_sdram : Bool) (s : CRGState) : List Ev → CRGState
  | [] => s
  | e :: es => run with_sdram (stepEv with_sdram s e) es

/-- A state is reachable when some interleaving of ticks of the two
domains produces it from the power-on state. -/
def Reachable (with_sdram : Bool) (s : CRGState) : Prop :=
  ∃ evs : List Ev, s = run with_sdram initState evs

/-- The value of the external reset `cpu_reset` sampled at an event. -/
def Ev.cpuResetSample : Ev → Bool
  | .clk200 _ c => c
  | .ic _ c => c

/-- Whether an event is a `clk200` tick with `pll.locked` sampled true. -/
def Ev.lockedAtClk200 : Ev → Bool
  | .clk200 l _ => l
  | .ic _ _ => false

/-- Whether an event is a tick of the `ic` (primary) domain. -/
def Ev.isIC : Ev → Bool
  | .clk200 _ _ => false
  | .ic _ _ => true

/-- The value of `ic_rdy` sampled at an event (false on `clk200` ticks,
which do not sample it). -/
def Ev.icRdySample (with_sdram : Bool) : Ev → Bool
  | .clk200 _ _ => false
  | .ic r _ => icRdy with_sdram r

/-- True when no event of the list carries an asserted external reset. -/
def noExternalReset (evs : List Ev) : Bool :=
  evs.all (fun e => !e.cpuResetSample)

/-- True when no `clk200` tick of the list observes `pll.locked` true. -/
def neverLocked (evs : List Ev) : Bool :=
  evs.all (fun e => !e.lockedAtClk200)

/-- The names of the clock domains `_CRG.__init__` creates. -/
inductive DomainName where
  | sys
  | sys4x
  | clk200
  | ic
  | pll4x
deriving DecidableEq, Repr

/-- A clock-domain declaration of `_CRG.__init__`: its name and whether
it was constructed with `reset_less=True`. -/
structure ClockDomainDecl where
  name : DomainName
  reset_less : Bool
deriving DecidableEq, Repr

/-- The clock domains `_CRG.__init__` creates, in construction order:
`cd_sys`, `cd_sys4x` (`reset_less=True`), `cd_clk200`, `cd_ic`, and
`cd_pll4x` (`reset_less=True`). -/
def crgClockDomains : List ClockDomainDecl :=
  [ { name := .sys, reset_less := false },
    { name := .sys4x, reset_less := true },
    { name := .clk200, reset_less := false },
    { name := .ic, reset_less := false },
    { name := .pll4x, reset_less := true } ]

/-- The domains to which `_CRG.__init__` attaches an
`AsyncResetSynchronizer` special (the only reset-driving specials in
the module). -/
def crgResetSynchronizerTargets : List DomainName :=
  [.clk200, .ic]

/-- `DomainResetController.apply` as the spec words it: the primary
domain's reset bit as a combinational function
`externalResetRequested OR NOT sequencerReleased`. -/
def domainResetBitSpec (sequencerReleased externalResetRequested : Bool) : Bool :=
  externalResetRequested || !sequencerReleased

/-- A `clk200` tick with lock and no external reset. -/
def lockedTick : Ev := Ev.clk200 true false

/-- A primary-domain tick with the calibration input high and no
external reset. -/
def sysTick : Ev := Ev.ic true false

/-- The trace that releases the primary domain in the `with_sdram=False`
configuration: 64 locked bring-up ticks, then 64 primary-domain ticks. -/
def releasedTrace : List Ev :=
  List.replicate 64 lockedTick ++ List.replicate 64 sysTick

/-- Inductive invariant of the sequencer: both counters stay in
`[0, 63]`, `ic_reset` is deasserted only with Countdown-1 at zero, and
`cd_sys.rst` is deasserted only with Countdown-2 at zero. -/
def SeqInv (s : CRGState) : Prop :=
  s.ic_reset_counter ≤ 63 ∧ s.ic_rdy_counter ≤ 63 ∧
    (s.ic_reset = false → s.ic_reset_counter = 0) ∧
    (s.sys_rst = false → s.ic_rdy_counter = 0)

lemma seqInv_initState : SeqInv initState := by
  simp [SeqInv, initState]

lemma seqInv_tick200 (l c : Bool) (s : CRGState) (h : SeqInv s) : SeqInv (tick200 l c s) := by
  obtain ⟨n1, b1, n2, b2⟩ := s
  obtain ⟨h1, h2, h3, h4⟩ := h
  simp only [SeqInv] at *
  unfold tick200
  split_ifs with hrst hcnt <;> simp_all
  omega

lemma seqInv_tickIC (ws r c : Bool) (s : CRGState) (h : SeqInv s) : SeqInv (tickIC ws r c s) := by
  obtain ⟨n1, b1, n2, b2⟩ := s
  obtain ⟨h1, h2, h3, h4⟩ := h
  simp only [SeqInv] at *
  unfold tickIC
  split_ifs with hrst hrdy hcnt <;> simp_all
  omega

lemma seqInv_stepEv (ws : Bool) (s : CRGState) (e : Ev) (h : SeqInv s) :
    SeqInv (stepEv ws s e) := by
  cases e with
  | clk200 l c => exact seqInv_tick200 l c s h
  | ic r c => exact seqInv_tickIC ws r c s h

lemma seqInv_run (ws : Bool) (evs : List Ev) (s : CRGState) (h : SeqInv s) :
    SeqInv (run ws s evs) := by
  induction evs generalizing s with
  | nil => exact h
  | cons e es ih => exact ih _ (seqInv_stepEv ws s e h)

lemma seqInv_reachable (ws : Bool) (s : CRGState) (h : Reachable ws s) : SeqInv s := by
  obtain ⟨evs, rfl⟩ := h
  exact seqInv_run ws evs initState seqInv_initState


@[simp] lemma mk_ic_reset_counter (n1 : Nat) (b1 : Bool) (n2 : Nat) (b2 : Bool) :
    (CRGState.mk n1 b1 n2 b2).ic_reset_counter = n1 := rfl

@[simp] lemma mk_ic_reset (n1 : Nat) (b1 : Bool) (n2 : Nat) (b2 : Bool) :
    (CRGState.mk n1 b1 n2 b2).ic_reset = b1 := rfl

@[simp] lemma mk_ic_rdy_counter (n1 : Nat) (b1 : Bool) (n2 : Nat) (b2 : Bool) :
    (CRGState.mk n1 b1 n2 b2).ic_rdy_counter = n2 := rfl

@[simp] lemma mk_sys_rst (n1 : Nat) (b1 : Bool) (n2 : Nat) (b2 : Bool) :
    (CRGState.mk n1 b1 n2 b2).sys_rst = b2 := rfl

/-- The `clk200` loop never drives the primary-domain reset bit. -/
lemma tick200_sys_rst (l c : Bool) (s : CRGState) :
    (tick200 l c s).sys_rst = s.sys_rst := by
  unfold tick200
  split_ifs <;> rfl

/-- The `clk200` loop never drives Countdown-2. -/
lemma tick200_ic_rdy_counter (l c : Bool) (s : CRGState) :
    (tick200 l c s).ic_rdy_counter = s.ic_rdy_counter := by
  unfold tick200
  split_ifs <;> rfl

/-- The `ic` loop never drives the intermediate reset. -/
lemma tickIC_ic_reset (ws r c : Bool) (s : CRGState) :
    (tickIC ws r c s).ic_reset = s.ic_reset := by
  unfold tickIC
  split_ifs <;> rfl

/-- The `ic` loop never drives Countdown-1. -/
lemma tickIC_ic_reset_counter (ws r c : Bool) (s : CRGState) :
    (tickIC ws r c s).ic_reset_counter = s.ic_reset_counter := by
  unfold tickIC
  split_ifs <;> rfl

/-- The prefix of `releasedTrace` stopping one primary-domain tick short
of release: Countdown-2 has just reached 0 but `cd_sys.rst` is still
asserted. -/
def preReleaseTrace : List Ev :=
  List.replicate 64 lockedTick ++ List.replicate 63 sysTick

/-- The prefix of `releasedTrace` that completes stage 1 only:
`ic_reset` has just deasserted. -/
def stage1Trace : List Ev :=
  List.replicate 64 lockedTick

/-- C1: in every reachable state `cd_sys.rst` is deasserted only with
Countdown-2 at zero, and any transition that deasserts it is a
primary-domain tick observing `ic_rdy` true with Countdown-2 already at
zero and the intermediate reset already deasserted — hence, by the
sequencer invariant, with Countdown-1 already at zero: no interleaving
of ticks releases the primary domain without first passing both delays
and the readiness condition. -/
theorem c1_release_requires_delays_and_ready (ws : Bool) (s : CRGState) (e : Ev)
    (hs : Reachable ws s) :
    (s.sys_rst = false → s.ic_rdy_counter = 0) ∧
    (s.sys_rst = true → (stepEv ws s e).sys_rst = false →
      s.ic_rdy_counter = 0 ∧ s.ic_reset = false ∧ s.ic_reset_counter = 0 ∧
        e.isIC = true ∧ e.icRdySample ws = true) := by
  have hinv := seqInv_reachable ws s hs
  clear hs
  obtain ⟨n1, b1, n2, b2⟩ := s
  obtain ⟨h1, h2, h3, h4⟩ := hinv
  simp only [mk_ic_reset_counter, mk_ic_reset, mk_ic_rdy_counter, mk_sys_rst] at *
  refine ⟨h4, ?_⟩
  intro hon hoff
  cases e with
  | clk200 l c =>
    simp only [stepEv] at hoff
    rw [tick200_sys_rst] at hoff
    simp_all
  | ic r c =>
    simp only [stepEv] at hoff
    unfold tickIC at hoff
    split_ifs at hoff with hrst hrdy hcnt
    · simp_all
    · have hb1 : b1 = false := by simpa using hrst
      have hn2 : n2 = 0 := by simpa using hcnt
      refine ⟨hn2, hb1, h3 hb1, rfl, ?_⟩
      simpa [Ev.icRdySample] using hrdy
    · simp_all

set_option maxRecDepth 10000 in
/-- Witness for C1 at the release transition of the concrete bring-up
trace in the `with_sdram=False` configuration. -/
theorem c1_release_requires_delays_and_ready_witness :
    (run false initState preReleaseTrace).ic_rdy_counter = 0 ∧
    (run false initState preReleaseTrace).ic_reset = false ∧
    (run false initState preReleaseTrace).ic_reset_counter = 0 ∧
    Ev.isIC sysTick = true ∧ Ev.icRdySample false sysTick = true :=
  (c1_release_requires_delays_and_ready false (run false initState preReleaseTrace)
      sysTick ⟨preReleaseTrace, rfl⟩).2 (by decide) (by decide)

/-- C3: Countdown-2 decrements on a primary-domain tick only when that
tick observes `ic_rdy` true (and the `ic` domain is out of reset): it
never decrements while the ReadySignal is observed false. -/
theorem c3_no_decrement_before_ready (ws r c : Bool) (s : CRGState)
    (hs : Reachable ws s)
    (hdec : (tickIC ws r c s).ic_rdy_counter < s.ic_rdy_counter) :
    icRdy ws r = true ∧ s.ic_reset = false := by
  have hinv := seqInv_reachable ws s hs
  clear hs
  obtain ⟨n1, b1, n2, b2⟩ := s
  obtain ⟨h1, h2, h3, h4⟩ := hinv
  simp only [mk_ic_reset_counter, mk_ic_reset, mk_ic_rdy_counter, mk_sys_rst] at *
  unfold tickIC at hdec
  split_ifs at hdec with hrst hrdy hcnt
  · simp at hdec
    omega
  · exact ⟨hrdy, by simpa using hrst⟩
  · simp at hdec
  · exact absurd hdec (lt_irrefl _)

set_option maxRecDepth 10000 in
/-- Witness for C3: the first primary-domain tick after stage 1
completes does decrement Countdown-2, and indeed observes `ic_rdy` true
with the intermediate reset deasserted. -/
theorem c3_no_decrement_before_ready_witness :
    icRdy false true = true ∧ (run false initState stage1Trace).ic_reset = false :=
  c3_no_decrement_before_ready false true false (run false initState stage1Trace)
    ⟨stage1Trace, rfl⟩ (by decide)

/-- C9: in every reachable state both countdown values lie in `[0, 63]`,
and once a countdown is at zero a further tick leaves it at zero unless
that tick is a reset of its domain, which re-arms it to 63: the
decrement rule is skipped at zero, so neither counter ever wraps. -/
theorem c9_countdowns_saturate (ws l c r c2 : Bool) (s : CRGState)
    (hs : Reachable ws s) :
    s.ic_reset_counter ≤ 63 ∧ s.ic_rdy_counter ≤ 63 ∧
    (s.ic_reset_counter = 0 →
      (tick200 l c s).ic_reset_counter = if !l || c then 63 else 0) ∧
    (s.ic_rdy_counter = 0 →
      (tickIC ws r c2 s).ic_rdy_counter = if s.ic_reset then 63 else 0) := by
  have hinv := seqInv_reachable ws s hs
  clear hs
  obtain ⟨n1, b1, n2, b2⟩ := s
  obtain ⟨h1, h2, h3, h4⟩ := hinv
  simp only [mk_ic_reset_counter, mk_ic_reset, mk_ic_rdy_counter, mk_sys_rst] at *
  refine ⟨h1, h2, ?_, ?_⟩
  · intro h0
    unfold tick200
    split_ifs with hrst hcnt <;> simp_all
  · intro h0
    unfold tickIC
    split_ifs with hrst hrdy hcnt <;> simp_all

set_option maxRecDepth 10000 in
/-- Witness for C9 at the reachable state in which both countdowns have
reached zero and the primary domain has been released. -/
theorem c9_countdowns_saturate_witness :
    (run false initState releasedTrace).ic_reset_counter ≤ 63 ∧
    (run false initState releasedTrace).ic_rdy_counter ≤ 63 ∧
    ((run false initState releasedTrace).ic_reset_counter = 0 →
      (tick200 true false (run false initState releasedTrace)).ic_reset_counter =
        if !true || false then 63 else 0) ∧
    ((run false initState releasedTrace).ic_rdy_counter = 0 →
      (tickIC false true false (run false initState releasedTrace)).ic_rdy_counter =
        if (run false initState releasedTrace).ic_reset then 63 else 0) :=
  c9_countdowns_saturate false true false true false
    (run false initState releasedTrace) ⟨releasedTrace, rfl⟩

set_option maxRecDepth 10000 in
/-- C2 counterexample: the claim says one primary-domain tick with the
external reset asserted re-asserts `cd_sys.rst` and reloads Countdown-2
to 63.  In the reachable released state, a primary-domain tick that
samples `cpu_reset` true leaves `cd_sys.rst` deasserted and Countdown-2
at 0 (not 63): the `ic`-domain logic never reads `cpu_reset`, so the
re-arm must first travel through the `clk200` domain via `ic_reset`. -/
theorem c2_counterexample :
    (run false initState releasedTrace).sys_rst = false ∧
    (tickIC false true true (run false initState releasedTrace)).sys_rst = false ∧
    (tickIC false true true (run false initState releasedTrace)).ic_rdy_counter = 0 := by
  decide

/-- C2 (amended): a `clk200` tick sampling `cpu_reset` true reloads
Countdown-1 to 63 and re-asserts `ic_reset`, in any state; and whenever
`ic_reset` is asserted, the next primary-domain tick re-asserts
`cd_sys.rst` and reloads Countdown-2 to 63 — so re-arming takes one
`clk200` tick followed by one primary-domain tick, overriding any
in-progress count. -/
theorem c2_external_reset_rearms (ws l r c : Bool) (s : CRGState) :
    (tick200 l true s).ic_reset_counter = 63 ∧
    (tick200 l true s).ic_reset = true ∧
    (s.ic_reset = true →
      (tickIC ws r c s).ic_rdy_counter = 63 ∧ (tickIC ws r c s).sys_rst = true) := by
  obtain ⟨n1, b1, n2, b2⟩ := s
  refine ⟨?_, ?_, ?_⟩
  · unfold tick200
    simp
  · unfold tick200
    simp
  · intro hb1
    simp only [mk_ic_reset] at hb1
    subst hb1
    unfold tickIC
    simp

/-- Witness for the amended C2 at the power-on state. -/
theorem c2_external_reset_rearms_witness :
    (tick200 true true initState).ic_reset_counter = 63 ∧
    (tick200 true true initState).ic_reset = true ∧
    ((tickIC false true true initState).ic_rdy_counter = 63 ∧
      (tickIC false true true initState).sys_rst = true) :=
  ⟨(c2_external_reset_rearms false true true true initState).1,
   (c2_external_reset_rearms false true true true initState).2.1,
   (c2_external_reset_rearms false true true true initState).2.2 (by decide)⟩

/-- Tail appended to `releasedTrace`: `pll.locked` drops for one
bring-up tick, then one primary-domain tick follows; no event of the
whole trace asserts the external reset. -/
def lockLossTail : List Ev :=
  [Ev.clk200 false false, Ev.ic true false]

set_option maxRecDepth 10000 in
/-- C4 counterexample: the claim says `cd_sys.rst`, once deasserted,
remains deasserted until the next external reset assertion.  On the
concrete trace that releases the domain and then loses `pll.locked` for
one bring-up tick, `cd_sys.rst` re-asserts although `cpu_reset` is never
sampled true: loss of lock resets the `clk200` domain, re-asserting
`ic_reset` and hence the primary-domain reset. -/
theorem c4_counterexample :
    (run false initState releasedTrace).sys_rst = false ∧
    noExternalReset (releasedTrace ++ lockLossTail) = true ∧
    (run false initState (releasedTrace ++ lockLossTail)).sys_rst = true := by
  decide

/-- C4 (amended): with `ic_reset` deasserted, a primary-domain tick
observing `ic_rdy` true and Countdown-2 at 0 deasserts `cd_sys.rst`,
while a tick with Countdown-2 non-zero leaves it unchanged — so it
deasserts exactly one primary-domain tick after Countdown-2 first
reaches 0 when those conditions persist; it then stays deasserted as
long as `ic_reset` stays deasserted (no `clk200` tick changes it), and
it re-asserts only via a primary-domain tick with `ic_reset` asserted,
which happens on external reset or on loss of lock. -/
theorem c4_deassert_one_tick_after_zero (ws r c l c2 : Bool) (s : CRGState) :
    (s.ic_reset = false → icRdy ws r = true → s.ic_rdy_counter = 0 →
      (tickIC ws r c s).sys_rst = false) ∧
    (s.ic_reset = false → s.ic_rdy_counter ≠ 0 →
      (tickIC ws r c s).sys_rst = s.sys_rst) ∧
    (s.sys_rst = false → s.ic_reset = false → (tickIC ws r c s).sys_rst = false) ∧
    (tick200 l c2 s).sys_rst = s.sys_rst ∧
    (s.sys_rst = false → (tickIC ws r c s).sys_rst = true → s.ic_reset = true) := by
  obtain ⟨n1, b1, n2, b2⟩ := s
  refine ⟨?_, ?_, ?_, tick200_sys_rst l c2 _, ?_⟩
  · intro hb1 hrdy hn2
    simp only [mk_ic_reset] at hb1
    simp only [mk_ic_rdy_counter] at hn2
    subst hb1
    unfold tickIC
    simp [hrdy, hn2]
  · intro hb1 hn2
    simp only [mk_ic_reset] at hb1
    simp only [mk_ic_rdy_counter] at hn2
    subst hb1
    unfold tickIC
    split_ifs <;> simp_all
  · intro hb2 hb1
    simp only [mk_ic_reset] at hb1
    simp only [mk_sys_rst] at hb2
    subst hb1
    subst hb2
    unfold tickIC
    split_ifs <;> simp_all
  · intro hb2 habs
    simp only [mk_sys_rst] at hb2
    by_contra hb1
    have hb1f : b1 = false := by simpa using hb1
    subst hb1f
    subst hb2
    unfold tickIC at habs
    split_ifs at habs
    simp_all

set_option maxRecDepth 10000 in
/-- Witness for the amended C4 at the state one primary-domain tick
short of release. -/
theorem c4_deassert_one_tick_after_zero_witness :
    (tickIC false true false (run false initState preReleaseTrace)).sys_rst = false ∧
    (tick200 true false (run false initState preReleaseTrace)).sys_rst =
      (run false initState preReleaseTrace).sys_rst :=
  ⟨(c4_deassert_one_tick_after_zero false true false true false
      (run false initState preReleaseTrace)).1 (by decide) (by decide) (by decide),
   (c4_deassert_one_tick_after_zero false true false true false
      (run false initState preReleaseTrace)).2.2.2.1⟩

set_option maxRecDepth 10000 in
/-- C5: with `with_sdram=False` and both countdown reset values 63,
`ic_reset` is still asserted after each of 0..63 locked bring-up ticks
and deasserts exactly at the 64th; `cd_sys.rst` is still asserted after
each of 0..63 subsequent primary-domain ticks and deasserts exactly at
the 64th — 128 ticks in total, none skipped or duplicated. -/
theorem c5_exact_release_delays :
    ((List.range 64).all fun k =>
      (run false initState (List.replicate k lockedTick)).ic_reset) = true ∧
    (run false initState stage1Trace).ic_reset = false ∧
    ((List.range 64).all fun k =>
      (run false initState (stage1Trace ++ List.replicate k sysTick)).sys_rst) = true ∧
    (run false initState releasedTrace).sys_rst = false ∧
    releasedTrace.length = 128 := by
  decide

/-- C6: with the calibration subsystem absent (`with_sdram=False`),
`ic_rdy` is the constant true, and as soon as `ic_reset` is deasserted
every primary-domain tick with Countdown-2 non-zero decrements it: stage
2 counting starts at the first primary-domain tick after stage 1
completes, with no waiting-for-ready delay. -/
theorem c6_bypass_ready (r c : Bool) (s : CRGState) :
    icRdy false r = true ∧
    (s.ic_reset = false → s.ic_rdy_counter ≠ 0 →
      (tickIC false r c s).ic_rdy_counter = s.ic_rdy_counter - 1 ∧
      (tickIC false r c s).sys_rst = s.sys_rst) := by
  obtain ⟨n1, b1, n2, b2⟩ := s
  refine ⟨rfl, ?_⟩
  intro hb1 hn2
  simp only [mk_ic_reset] at hb1
  simp only [mk_ic_rdy_counter] at hn2
  subst hb1
  unfold tickIC
  split_ifs <;> simp_all [icRdy]

set_option maxRecDepth 10000 in
/-- Witness for C6 at the first primary-domain tick after stage 1. -/
theorem c6_bypass_ready_witness :
    icRdy false true = true ∧
    ((tickIC false true false (run false initState stage1Trace)).ic_rdy_counter =
        (run false initState stage1Trace).ic_rdy_counter - 1 ∧
      (tickIC false true false (run false initState stage1Trace)).sys_rst =
        (run false initState stage1Trace).sys_rst) :=
  ⟨(c6_bypass_ready true false (run false initState stage1Trace)).1,
   (c6_bypass_ready true false (run false initState stage1Trace)).2
      (by decide) (by decide)⟩

/-- While `pll.locked` stays false, the power-on state is a fixed point:
every tick of either domain reloads reset values that are already held. -/
lemma run_initState_of_neverLocked (ws : Bool) (evs : List Ev)
    (h : neverLocked evs = true) : run ws initState evs = initState := by
  induction evs with
  | nil => rfl
  | cons e es ih =>
    simp only [neverLocked, List.all_cons, Bool.and_eq_true] at h
    have hstep : stepEv ws initState e = initState := by
      cases e with
      | clk200 l c =>
        have hl : l = false := by simpa [Ev.lockedAtClk200] using h.1
        subst hl
        rfl
      | ic r c => rfl
    rw [run, hstep]
    exact ih (by simpa [neverLocked] using h.2)

/-- C7: a bring-up tick observing `pll.locked` false never decrements
Countdown-1 (it reloads it to 63, the maximum of its range), and along
any execution in which lock is never observed, the whole sequencer stays
at the power-on state: `ic_reset` and `cd_sys.rst` remain asserted
forever, with no error reported. -/
theorem c7_no_lock_no_progress (c ws : Bool) (s : CRGState) (evs : List Ev) :
    (s.ic_reset_counter ≤ 63 →
      ¬ (tick200 false c s).ic_reset_counter < s.ic_reset_counter) ∧
    (neverLocked evs = true →
      run ws initState evs = initState ∧
      (run ws initState evs).sys_rst = true ∧
      (run ws initState evs).ic_reset = true) := by
  obtain ⟨n1, b1, n2, b2⟩ := s
  constructor
  · intro h1
    simp only [mk_ic_reset_counter] at h1 ⊢
    unfold tick200
    simp
    omega
  · intro h
    have hrun := run_initState_of_neverLocked ws evs h
    refine ⟨hrun, ?_, ?_⟩ <;> rw [hrun] <;> rfl

/-- An execution that never observes lock: two ticks of each domain,
one of them with the external reset asserted. -/
def lockFailTrace : List Ev :=
  [Ev.clk200 false false, Ev.ic true false, Ev.clk200 false true, Ev.ic true true]

/-- Witness for C7 on a concrete lock-free execution. -/
theorem c7_no_lock_no_progress_witness :
    ¬ (tick200 false false initState).ic_reset_counter < initState.ic_reset_counter ∧
    (run false initState lockFailTrace = initState ∧
      (run false initState lockFailTrace).sys_rst = true ∧
      (run false initState lockFailTrace).ic_reset = true) :=
  ⟨(c7_no_lock_no_progress false false initState lockFailTrace).1 (by decide),
   (c7_no_lock_no_progress false false initState lockFailTrace).2 (by decide)⟩

set_option maxRecDepth 10000 in
/-- C8 counterexample: the claim says `cd_sys.rst` equals, at every
instant, `externalResetRequested OR NOT sequencerReleased`.  In the
reachable released state (`sequencerReleased` true) a primary-domain
tick samples `cpu_reset` true; the spec-side combinational function
demands the reset bit be asserted, but the code's registered bit stays
deasserted both at that instant and after the tick. -/
theorem c8_counterexample :
    (run false initState releasedTrace).sys_rst = false ∧
    domainResetBitSpec true true = true ∧
    (tickIC false true true (run false initState releasedTrace)).sys_rst = false := by
  decide

/-- C8 (amended): `cd_sys.rst` is a registered signal equal to "NOT
sequencerReleased", not a combinational function of the external reset:
its next value never depends on `cpu_reset` within a tick, no `clk200`
tick drives it, and at a primary-domain tick it becomes false exactly
when the sequencer completes (`ic_rdy` observed true with Countdown-2
at 0), stays as it was otherwise, and re-asserts on `ic`-domain reset. -/
theorem c8_registered_not_combinational (ws r l c : Bool) (s : CRGState) :
    tickIC ws r true s = tickIC ws r false s ∧
    (tick200 l c s).sys_rst = s.sys_rst ∧
    (s.ic_reset = false →
      (tickIC ws r c s).sys_rst =
        if icRdy ws r = true ∧ s.ic_rdy_counter = 0 then false else s.sys_rst) ∧
    (s.ic_reset = true → (tickIC ws r c s).sys_rst = true) := by
  obtain ⟨n1, b1, n2, b2⟩ := s
  refine ⟨rfl, tick200_sys_rst l c _, ?_, ?_⟩
  · intro hb1
    simp only [mk_ic_reset] at hb1
    subst hb1
    unfold tickIC
    split_ifs <;> simp_all
  · intro hb1
    simp only [mk_ic_reset] at hb1
    subst hb1
    unfold tickIC
    simp

set_option maxRecDepth 10000 in
/-- Witness for the amended C8 at the released state. -/
theorem c8_registered_not_combinational_witness :
    tickIC false true true (run false initState releasedTrace) =
      tickIC false true false (run false initState releasedTrace) ∧
    (tickIC false true false (run false initState releasedTrace)).sys_rst =
      (if icRdy false true = true ∧
          (run false initState releasedTrace).ic_rdy_counter = 0 then false
        else (run false initState releasedTrace).sys_rst) :=
  ⟨(c8_registered_not_combinational false true true false
      (run false initState releasedTrace)).1,
   (c8_registered_not_combinational false true true false
      (run false initState releasedTrace)).2.2.1 (by decide)⟩

/-- C10: among the five clock domains `_CRG` constructs, exactly
`cd_sys4x` and `cd_pll4x` are `reset_less` — they carry no reset line —
while `cd_sys`, `cd_clk200` and `cd_ic` do carry one; and neither
reset-less domain is the target of an `AsyncResetSynchronizer`, so
nothing (sequencer, external reset, or loss of lock) ever holds them in
reset: they run as soon as the multiplier produces their clock. -/
theorem c10_reset_less_domains :
    ((crgClockDomains.filter fun d => d.reset_less).map ClockDomainDecl.name =
      [DomainName.sys4x, DomainName.pll4x]) ∧
    ((crgClockDomains.filter fun d => !d.reset_less).map ClockDomainDecl.name =
      [DomainName.sys, DomainName.clk200, DomainName.ic]) ∧
    crgResetSynchronizerTargets.contains DomainName.sys4x = false ∧
    crgResetSynchronizerTargets.contains DomainName.pll4x = false := by
  decide
